import Mathlib

/-!
# Verification of the `GameMapPixiComponent` tile-map renderer

A shallow embedding of the Angular/Pixi component in
`game-map-pixi.component.ts`.  The component state (zoom level, map and
player-indicator containers, texture fields, sprite registry, resize
observer) is mirrored by `ComponentState`; every handler of the component
(`onWheel`, `updateMap`, `loadTextures`, `ngOnInit`, `ngOnDestroy`) is
translated into a pure state-transition function.  JavaScript numbers are
modelled by exact rationals `ℚ`.  External helpers imported from
`../../helpers` (`createNodeSprites`, `generateMapGrid`,
`windowWidthTiles`, …) are treated as opaque parameters, exactly as the
component treats them: the theorems quantify over their behaviour.
-/

namespace GameMap

/-- A 2-D point with rational coordinates (a Pixi `position`). -/
structure Point where
  x : ℚ
  y : ℚ
  deriving DecidableEq, Repr

/-- An opaque Pixi display object placed into a container by the external
sprite helpers.  Only identity matters to the component. -/
structure Sprite where
  id : ℕ
  deriving DecidableEq, Repr

/-- A Pixi `Container`: position, uniform scale, children, and the
`cullable` flag the component sets on the map container. -/
structure Container where
  position : Point
  scale : ℚ
  children : List Sprite
  cullable : Bool
  deriving DecidableEq, Repr

/-- An opaque Pixi `Texture`. -/
structure Texture where
  id : ℕ
  deriving DecidableEq, Repr

/-- The type `LoadedTextures = Record<string, Texture>`: a finite record from
sprite names to textures, `{}` being the empty record. -/
def LoadedTextures := List (String × Texture)

instance : DecidableEq LoadedTextures := by
  unfold LoadedTextures
  infer_instance

/-- An opaque `WorldLocation` (game node data, owned elsewhere). -/
structure WorldLocation where
  id : ℕ
  deriving DecidableEq, Repr

/-- One cell of the generated map grid (`MapTileData`). -/
structure MapTileData where
  x : ℤ
  y : ℤ
  nodeData : WorldLocation
  deriving DecidableEq, Repr

/-- The record `NodeSpriteData`: the visual layers rendered for one tile. -/
structure NodeSpriteData where
  terrain : Sprite
  object : Option Sprite
  claimIndicator : Option Sprite
  deriving DecidableEq, Repr

/-- The Pixi `Application`; the component only creates and destroys it. -/
structure Application where
  destroyed : Bool
  deriving DecidableEq, Repr

/-- The `ResizeObserver` installed by `setupResponsiveCanvas`. -/
structure Observer where
  connected : Bool
  deriving DecidableEq, Repr

/-- The mutable fields of `GameMapPixiComponent`, with their declared
initial values captured by `initialState` below. -/
structure ComponentState where
  app : Option Application
  mapContainer : Option Container
  playerIndicatorContainer : Option Container
  terrainTextures : LoadedTextures
  objectTextures : LoadedTextures
  checkTexture : Option Texture
  xTexture : Option Texture
  nodeSprites : String → Option NodeSpriteData
  resizeObserver : Option Observer
  zoomLevel : ℚ

/-- Field initializers of the component class: no app or containers yet,
empty texture records, undefined indicator textures, empty sprite
registry, no observer, `zoomLevel = 1.0`. -/
def initialState : ComponentState where
  app := none
  mapContainer := none
  playerIndicatorContainer := none
  terrainTextures := []
  objectTextures := []
  checkTexture := none
  xTexture := none
  nodeSprites := fun _ => none
  resizeObserver := none
  zoomLevel := 1

/-- The constant `minZoom = 0.5`. -/
def minZoom : ℚ := 1/2

/-- The constant `maxZoom = 1.0`. -/
def maxZoom : ℚ := 1

/-- A `WheelEvent`: scroll amount and client-space cursor coordinates. -/
structure WheelEvent where
  deltaY : ℚ
  clientX : ℚ
  clientY : ℚ
  deriving DecidableEq, Repr

/-- The canvas bounding rectangle returned by `getBoundingClientRect`. -/
structure Rect where
  left : ℚ
  top : ℚ
  deriving DecidableEq, Repr

/-- The line `const zoomDelta = event.deltaY < 0 ? 0.1 : -0.1`. -/
def zoomDelta (event : WheelEvent) : ℚ :=
  if event.deltaY < 0 then 1/10 else -(1/10)

/-- The line `newZoom = Math.max(this.minZoom, Math.min(this.maxZoom, newZoom))`. -/
def clampZoom (z : ℚ) : ℚ := max minZoom (min maxZoom z)

/-- The clamped new zoom a wheel event produces from the current state:
`clampZoom (zoomLevel + zoomDelta)`. -/
def newZoomAfter (event : WheelEvent) (s : ComponentState) : ℚ :=
  clampZoom (s.zoomLevel + zoomDelta event)

/-- The handler `onWheel`, translated line by line.  Guard: bail out unless both
`mapContainer` and `app` are set.  Compute the clamped new zoom and bail
out if it equals the old zoom.  Otherwise compute the cursor position
relative to the canvas, the world point under the cursor at the old zoom,
then set both containers' scales to the new zoom and both positions to
`cursor - world * newZoom`. -/
def onWheel (event : WheelEvent) (rect : Rect) (s : ComponentState) :
    ComponentState :=
  match s.mapContainer, s.app with
  | some mapC, some _ =>
    let oldZoom := s.zoomLevel
    let newZoom := newZoomAfter event s
    if newZoom = oldZoom then s
    else
      let mouseX := event.clientX - rect.left
      let mouseY := event.clientY - rect.top
      let worldX := (mouseX - mapC.position.x) / oldZoom
      let worldY := (mouseY - mapC.position.y) / oldZoom
      let newPos : Point :=
        ⟨mouseX - worldX * newZoom, mouseY - worldY * newZoom⟩
      { s with
        zoomLevel := newZoom
        mapContainer := some { mapC with scale := newZoom, position := newPos }
        playerIndicatorContainer :=
          s.playerIndicatorContainer.map fun p =>
            { p with scale := newZoom, position := newPos } }
  | _, _ => s

/-- The tile key `` `${x}-${y}` `` used for the sprite registry. -/
def nodeKey (x y : ℤ) : String := toString x ++ "-" ++ toString y

/-- Behaviour of the external `createNodeSprites` helper: from a tile and
the component's texture fields it produces an optional registry entry
together with the display objects it appends to the map container.  It is
a black box to the component, so the theorems quantify over it. -/
def CreateNodeSpritesFn : Type :=
  ℤ → ℤ → WorldLocation → LoadedTextures → LoadedTextures →
    Option Texture → Option Texture → Option NodeSpriteData × List Sprite

/-- The component method `createNodeSprites`: guard on `mapContainer`,
build the `x-y` key, call the external helper with the current texture
fields, and record the returned sprite data under the key when present. -/
def createNodeSprites (create : CreateNodeSpritesFn) (x y : ℤ)
    (nodeData : WorldLocation) (s : ComponentState) : ComponentState :=
  match s.mapContainer with
  | none => s
  | some mapC =>
    let key := nodeKey x y
    let result := create x y nodeData s.terrainTextures s.objectTextures
      s.checkTexture s.xTexture
    let s1 := { s with
      mapContainer := some { mapC with children := mapC.children ++ result.2 } }
    match result.1 with
    | some spriteData =>
      { s1 with nodeSprites := fun k =>
          if k = key then some spriteData else s1.nodeSprites k }
    | none => s1

/-- Behaviour of the external `createPlayerIndicator` helper: the display
objects it appends to the player-indicator container for a tile. -/
def PlayerIndicatorFn : Type := ℤ → ℤ → List Sprite

/-- The body of the `forEach` loop of `updatePlayerIndicators`: skip
tiles the player is not at, otherwise append the indicator's display
objects to the player-indicator container. -/
def playerIndicatorStep (isAtNode : WorldLocation → Bool)
    (indicator : PlayerIndicatorFn) (acc : ComponentState)
    (t : MapTileData) : ComponentState :=
  if isAtNode t.nodeData then
    match acc.playerIndicatorContainer with
    | some playerC =>
      let playerC2 :=
        { playerC with children := playerC.children ++ indicator t.x t.y }
      { acc with playerIndicatorContainer := some playerC2 }
    | none => acc
  else acc

/-- The component method `updatePlayerIndicators`: guard on the
player-indicator container and the app, then add an indicator for every
tile whose node the player is at (`isAtNode`, an external predicate). -/
def updatePlayerIndicators (isAtNode : WorldLocation → Bool)
    (indicator : PlayerIndicatorFn) (mapData : List (List MapTileData))
    (s : ComponentState) : ComponentState :=
  match s.playerIndicatorContainer, s.app with
  | some _, some _ =>
    mapData.foldl (fun acc row =>
      row.foldl (playerIndicatorStep isAtNode indicator) acc) s
  | _, _ => s

/-- The body of the `forEach` loop of `updateMap`: destructure a tile and
call the component's `createNodeSprites`. -/
def createNodeSpritesStep (create : CreateNodeSpritesFn)
    (acc : ComponentState) (t : MapTileData) : ComponentState :=
  createNodeSprites create t.x t.y t.nodeData acc

/-- The first three lines of `updateMap`: clear the children of both
containers and reset the sprite registry to `{}`. -/
def clearedState (mapC playerC : Container) (s : ComponentState) :
    ComponentState :=
  { s with
    mapContainer := some { mapC with children := [] }
    playerIndicatorContainer := some { playerC with children := [] }
    nodeSprites := fun _ => none }

/-- The component method `updateMap`: guard on both containers, clear
the children of both and reset the sprite registry to `{}`
(`clearedState`), then walk the new map data row by row creating node
sprites, and finally refresh the player indicators. -/
def updateMap (create : CreateNodeSpritesFn) (isAtNode : WorldLocation → Bool)
    (indicator : PlayerIndicatorFn) (mapData : List (List MapTileData))
    (s : ComponentState) : ComponentState :=
  match s.mapContainer, s.playerIndicatorContainer with
  | some mapC, some playerC =>
    let s1 := clearedState mapC playerC s
    let s2 := mapData.foldl (fun acc row =>
      row.foldl (createNodeSpritesStep create) acc) s1
    updatePlayerIndicators isAtNode indicator mapData s2
  | _, _ => s

/-- The component method `loadTextures`.  The awaited
`loadGameMapTextures` call and the subsequent
`createClaimIndicatorTextures` call both run inside one `try`; either may
throw, modelled by `Except`.  The `catch` logs exactly one error through
the logger service; the returned list is the log output of the call. -/
def loadTextures (loadResult : Except String (LoadedTextures × LoadedTextures))
    (claimResult : Except String (Texture × Texture)) (s : ComponentState) :
    ComponentState × List String :=
  match loadResult with
  | .error e => (s, ["Failed to load textures: " ++ e])
  | .ok textures =>
    let s1 := { s with
      terrainTextures := textures.1
      objectTextures := textures.2 }
    match claimResult with
    | .error e => (s1, ["Failed to load textures: " ++ e])
    | .ok claimTextures =>
      ({ s1 with
          checkTexture := some claimTextures.1
          xTexture := some claimTextures.2 }, [])

/-- The component method `initPixi`: store the application created by
`initializePixiApp`, the two containers from `createGameMapContainers`
(setting `cullable` on the map container), and the resize observer from
`setupResponsiveCanvas`. -/
def initPixi (app : Application) (mapC playerC : Container) (obs : Observer)
    (s : ComponentState) : ComponentState :=
  { s with
    app := some app
    mapContainer := some { mapC with cullable := true }
    playerIndicatorContainer := some playerC
    resizeObserver := some obs }

/-- The three externally visible phases of `ngOnInit`. -/
inductive InitStep where
  | initSurface
  | texturesLoaded
  | renderTiles
  deriving DecidableEq, BEq, Repr

/-- The lifecycle hook `ngOnInit`: `await initPixi(); await loadTextures();
updateMap(this.map().tiles)` — three sequential phases, each suspending
until the previous completes.  Returns the final state together with the
ordered trace of completed phases. -/
def ngOnInit (app : Application) (mapC playerC : Container) (obs : Observer)
    (loadResult : Except String (LoadedTextures × LoadedTextures))
    (claimResult : Except String (Texture × Texture))
    (create : CreateNodeSpritesFn) (isAtNode : WorldLocation → Bool)
    (indicator : PlayerIndicatorFn) (mapData : List (List MapTileData))
    (s : ComponentState) : ComponentState × List InitStep :=
  let s1 := initPixi app mapC playerC obs s
  let t1 : List InitStep := [.initSurface]
  let s2 := (loadTextures loadResult claimResult s1).1
  let t2 := t1 ++ [.texturesLoaded]
  let s3 := updateMap create isAtNode indicator mapData s2
  let t3 := t2 ++ [.renderTiles]
  (s3, t3)

/-- The lifecycle hook `ngOnDestroy`: `this.resizeObserver?.disconnect();
this.app?.destroy(true)`. -/
def ngOnDestroy (s : ComponentState) : ComponentState :=
  { s with
    resizeObserver := s.resizeObserver.map fun o => { o with connected := false }
    app := s.app.map fun a => { a with destroyed := true } }

/-- The `nodeWidth` computed signal:
`Math.min(gamestate().world.width, windowWidthTiles() + 1)`. -/
def nodeWidth (worldWidth windowWidthTiles : ℚ) : ℚ :=
  min worldWidth (windowWidthTiles + 1)

/-- The `nodeHeight` computed signal:
`Math.min(gamestate().world.height, windowHeightTiles() + 1)`. -/
def nodeHeight (worldHeight windowHeightTiles : ℚ) : ℚ :=
  min worldHeight (windowHeightTiles + 1)

/-- Stated from the spec's words, for comparison with the code:
`worldPointUnderCursor = (cursorPos − currentOffset) / currentZoom`. -/
def specWorldPoint (cursorPos currentOffset currentZoom : ℚ) : ℚ :=
  (cursorPos - currentOffset) / currentZoom

/-- Stated from the spec's words, for comparison with the code:
`newOffset = cursorPos − worldPointUnderCursor × newZoom`. -/
def specNewOffset (cursorPos currentOffset currentZoom newZoom : ℚ) : ℚ :=
  cursorPos - specWorldPoint cursorPos currentOffset currentZoom * newZoom

/-- A sequence of wheel events (each with the canvas rectangle at the
time of the event) processed in order by `onWheel`. -/
def processWheelEvents (events : List (WheelEvent × Rect))
    (s : ComponentState) : ComponentState :=
  events.foldl (fun acc er => onWheel er.1 er.2 acc) s

/-- The state reached after the first two phases of `ngOnInit`
(`initPixi` then `loadTextures`) — the state `updateMap` then renders. -/
def postLoadState (app : Application) (mapC playerC : Container)
    (obs : Observer)
    (loadResult : Except String (LoadedTextures × LoadedTextures))
    (claimResult : Except String (Texture × Texture))
    (s : ComponentState) : ComponentState :=
  (loadTextures loadResult claimResult (initPixi app mapC playerC obs s)).1

/-- One step of the registry rebuild: record the entry the external
helper returns for a tile, keyed by `nodeKey`, over a given registry. -/
def registryStep (create : CreateNodeSpritesFn)
    (terrain objT : LoadedTextures) (chk xt : Option Texture)
    (reg : String → Option NodeSpriteData) (t : MapTileData) :
    String → Option NodeSpriteData :=
  match (create t.x t.y t.nodeData terrain objT chk xt).1 with
  | some d => fun k => if k = nodeKey t.x t.y then some d else reg k
  | none => reg

/-- The registry built from scratch (the empty registry) for a flat list
of tiles: the closed form of what `updateMap` stores in `nodeSprites`. -/
def registryOf (create : CreateNodeSpritesFn)
    (terrain objT : LoadedTextures) (chk xt : Option Texture)
    (tiles : List MapTileData) : String → Option NodeSpriteData :=
  tiles.foldl (registryStep create terrain objT chk xt) (fun _ => none)

/-! ## Concrete fixtures used by the witnesses -/

/-- A concrete map container. -/
def sampleMapContainer : Container := ⟨⟨0, 0⟩, 1, [], true⟩

/-- A concrete player-indicator container. -/
def samplePlayerContainer : Container := ⟨⟨0, 0⟩, 1, [], false⟩

/-- A concrete live application. -/
def sampleApp : Application := ⟨false⟩

/-- A concrete post-initialization state: containers and app present,
zoom at its initial value `1.0`. -/
def sampleState : ComponentState :=
  { initialState with
    app := some sampleApp
    mapContainer := some sampleMapContainer
    playerIndicatorContainer := some samplePlayerContainer }

/-- A concrete zoom-in wheel event (`deltaY < 0`) at client `(100, 50)`. -/
def sampleWheelIn : WheelEvent := ⟨-1, 100, 50⟩

/-- A concrete zoom-out wheel event (`deltaY > 0`) at client `(100, 50)`. -/
def sampleWheelOut : WheelEvent := ⟨1, 100, 50⟩

/-- A concrete canvas rectangle at the origin. -/
def sampleRect : Rect := ⟨0, 0⟩

/-- A concrete sprite-creation behaviour: returns an entry only for the
tile `(0, 0)` and always appends one child to the map container. -/
def sampleCreate : CreateNodeSpritesFn := fun x y _ _ _ _ _ =>
  (if x = 0 ∧ y = 0 then some ⟨⟨1⟩, none, none⟩ else none, [⟨5⟩])

/-- A concrete map grid of one row with two tiles. -/
def sampleMapData : List (List MapTileData) :=
  [[⟨0, 0, ⟨7⟩⟩, ⟨1, 0, ⟨8⟩⟩]]

/-- A concrete `isAtNode` predicate. -/
def sampleIsAtNode : WorldLocation → Bool := fun w => w.id = 7

/-- A concrete player-indicator behaviour. -/
def sampleIndicator : PlayerIndicatorFn := fun _ _ => [⟨9⟩]

/-! ## Helper lemmas about the zoom clamp -/

lemma minZoom_le_clampZoom (z : ℚ) : minZoom ≤ clampZoom z :=
  le_max_left _ _

lemma clampZoom_le_maxZoom (z : ℚ) : clampZoom z ≤ maxZoom := by
  unfold clampZoom
  exact max_le (by norm_num [minZoom, maxZoom]) (min_le_left _ _)

lemma clampZoom_pos (z : ℚ) : 0 < clampZoom z :=
  lt_of_lt_of_le (by norm_num [minZoom]) (minZoom_le_clampZoom z)

lemma onWheel_zoom_mem (ev : WheelEvent) (rect : Rect) (s : ComponentState)
    (h1 : minZoom ≤ s.zoomLevel) (h2 : s.zoomLevel ≤ maxZoom) :
    minZoom ≤ (onWheel ev rect s).zoomLevel ∧
      (onWheel ev rect s).zoomLevel ≤ maxZoom := by
  unfold onWheel
  cases hm : s.mapContainer with
  | none => exact ⟨h1, h2⟩
  | some mapC =>
    cases ha : s.app with
    | none => exact ⟨h1, h2⟩
    | some a =>
      simp only
      split_ifs with h
      · exact ⟨h1, h2⟩
      · exact ⟨minZoom_le_clampZoom _, clampZoom_le_maxZoom _⟩

/-- C3: the zoom level starts at `1.0`, and every wheel event sets it to
the value `clampZoom (oldZoom ± 0.1)`, so from any state whose zoom lies
in `[0.5, 1.0]` (as the initial state's does) any sequence of wheel
events leaves the zoom in `[0.5, 1.0]`. -/
theorem zoomLevel_always_in_range (events : List (WheelEvent × Rect))
    (s : ComponentState) (h1 : (1 : ℚ)/2 ≤ s.zoomLevel)
    (h2 : s.zoomLevel ≤ 1) :
    initialState.zoomLevel = 1 ∧
      (1 : ℚ)/2 ≤ (processWheelEvents events s).zoomLevel ∧
      (processWheelEvents events s).zoomLevel ≤ 1 := by
  refine ⟨rfl, ?_⟩
  unfold processWheelEvents
  induction events generalizing s with
  | nil => exact ⟨h1, h2⟩
  | cons e es ih =>
    simp only [List.foldl_cons]
    exact ih _ (onWheel_zoom_mem e.1 e.2 s h1 h2).1
      (onWheel_zoom_mem e.1 e.2 s h1 h2).2

/-- Witness for C3 at the concrete post-initialization state and a
single zoom-out event. -/
theorem zoomLevel_always_in_range_witness :
    (1 : ℚ)/2 ≤ sampleState.zoomLevel ∧ sampleState.zoomLevel ≤ 1 ∧
      (initialState.zoomLevel = 1 ∧
        (1 : ℚ)/2 ≤
          (processWheelEvents [(sampleWheelOut, sampleRect)]
            sampleState).zoomLevel ∧
        (processWheelEvents [(sampleWheelOut, sampleRect)]
            sampleState).zoomLevel ≤ 1) :=
  ⟨by norm_num [sampleState, initialState],
   by norm_num [sampleState, initialState],
   zoomLevel_always_in_range [(sampleWheelOut, sampleRect)] sampleState
     (by norm_num [sampleState, initialState])
     (by norm_num [sampleState, initialState])⟩

/-- C10: a wheel event whose clamped new zoom equals the current zoom
(zooming in at `1.0` or out at `0.5`) returns early and changes nothing:
the whole state — zoom level, both containers' scales and positions — is
left exactly as it was. -/
theorem onWheel_noop_when_zoom_unchanged (ev : WheelEvent) (rect : Rect)
    (s : ComponentState) (h : newZoomAfter ev s = s.zoomLevel) :
    onWheel ev rect s = s := by
  unfold onWheel
  cases hm : s.mapContainer with
  | none => rfl
  | some mapC =>
    cases ha : s.app with
    | none => rfl
    | some a => simp [h]

/-- Witness for C10: zooming in at maximum zoom on the concrete state is
a no-op. -/
theorem onWheel_noop_witness :
    newZoomAfter sampleWheelIn sampleState = sampleState.zoomLevel ∧
      onWheel sampleWheelIn sampleRect sampleState = sampleState := by
  have h : newZoomAfter sampleWheelIn sampleState = sampleState.zoomLevel := by
    norm_num [newZoomAfter, clampZoom, zoomDelta, minZoom, maxZoom,
      sampleState, initialState, sampleWheelIn, min_def, max_def]
  exact ⟨h, onWheel_noop_when_zoom_unchanged sampleWheelIn sampleRect
    sampleState h⟩

/-- C1: whenever a wheel event passes the guards and changes the zoom,
the handler computes the world point under the cursor as
`(cursorPos - currentOffset) / currentZoom` from the pre-zoom offset and
zoom, and sets the new map-container offset to
`cursorPos - worldPointUnderCursor * newZoom`, in both coordinates. -/
theorem onWheel_offset_matches_spec (ev : WheelEvent) (rect : Rect)
    (s : ComponentState) (mapC : Container) (a : Application)
    (hm : s.mapContainer = some mapC) (ha : s.app = some a)
    (hz : newZoomAfter ev s ≠ s.zoomLevel) :
    ∃ mapC', (onWheel ev rect s).mapContainer = some mapC' ∧
      mapC'.position.x = specNewOffset (ev.clientX - rect.left)
        mapC.position.x s.zoomLevel (newZoomAfter ev s) ∧
      mapC'.position.y = specNewOffset (ev.clientY - rect.top)
        mapC.position.y s.zoomLevel (newZoomAfter ev s) := by
  simp only [onWheel, hm, ha]
  rw [if_neg hz]
  exact ⟨_, rfl, rfl, rfl⟩

/-- Witness for C1 at the concrete state and a zoom-out event. -/
theorem onWheel_offset_matches_spec_witness :
    ∃ mapC',
      (onWheel sampleWheelOut sampleRect sampleState).mapContainer =
        some mapC' ∧
      mapC'.position.x = specNewOffset
        (sampleWheelOut.clientX - sampleRect.left)
        sampleMapContainer.position.x sampleState.zoomLevel
        (newZoomAfter sampleWheelOut sampleState) ∧
      mapC'.position.y = specNewOffset
        (sampleWheelOut.clientY - sampleRect.top)
        sampleMapContainer.position.y sampleState.zoomLevel
        (newZoomAfter sampleWheelOut sampleState) :=
  onWheel_offset_matches_spec sampleWheelOut sampleRect sampleState
    sampleMapContainer sampleApp rfl rfl
    (by norm_num [newZoomAfter, clampZoom, zoomDelta, minZoom, maxZoom,
      sampleState, initialState, sampleWheelOut, min_def, max_def])

/-- C2: whenever a wheel event passes the guards and changes the zoom,
the world point that was under the cursor before the zoom step is still
under the cursor after it: recomputing
`(cursorPos - newOffset) / newZoom` with the updated offset and zoom
yields exactly the same world point as
`(cursorPos - oldOffset) / oldZoom`. -/
theorem onWheel_world_point_preserved (ev : WheelEvent) (rect : Rect)
    (s : ComponentState) (mapC : Container) (a : Application)
    (hm : s.mapContainer = some mapC) (ha : s.app = some a)
    (hz : newZoomAfter ev s ≠ s.zoomLevel) :
    ∃ mapC', (onWheel ev rect s).mapContainer = some mapC' ∧
      specWorldPoint (ev.clientX - rect.left) mapC'.position.x
          (onWheel ev rect s).zoomLevel =
        specWorldPoint (ev.clientX - rect.left) mapC.position.x
          s.zoomLevel ∧
      specWorldPoint (ev.clientY - rect.top) mapC'.position.y
          (onWheel ev rect s).zoomLevel =
        specWorldPoint (ev.clientY - rect.top) mapC.position.y
          s.zoomLevel := by
  have hnz : newZoomAfter ev s ≠ 0 := ne_of_gt (clampZoom_pos _)
  simp only [onWheel, hm, ha]
  rw [if_neg hz]
  refine ⟨_, rfl, ?_, ?_⟩ <;>
  · dsimp only
    simp only [specWorldPoint]
    rw [div_eq_iff hnz]
    ring

/-- Witness for C2 at the concrete state and a zoom-out event. -/
theorem onWheel_world_point_preserved_witness :
    ∃ mapC',
      (onWheel sampleWheelOut sampleRect sampleState).mapContainer =
        some mapC' ∧
      specWorldPoint (sampleWheelOut.clientX - sampleRect.left)
          mapC'.position.x
          (onWheel sampleWheelOut sampleRect sampleState).zoomLevel =
        specWorldPoint (sampleWheelOut.clientX - sampleRect.left)
          sampleMapContainer.position.x sampleState.zoomLevel ∧
      specWorldPoint (sampleWheelOut.clientY - sampleRect.top)
          mapC'.position.y
          (onWheel sampleWheelOut sampleRect sampleState).zoomLevel =
        specWorldPoint (sampleWheelOut.clientY - sampleRect.top)
          sampleMapContainer.position.y sampleState.zoomLevel :=
  onWheel_world_point_preserved sampleWheelOut sampleRect sampleState
    sampleMapContainer sampleApp rfl rfl
    (by norm_num [newZoomAfter, clampZoom, zoomDelta, minZoom, maxZoom,
      sampleState, initialState, sampleWheelOut, min_def, max_def])

/-- C8: whenever a wheel event passes the guards, the player-indicator
container is present and the zoom changes, the new zoom is applied
uniformly: both containers end with the same scale — the new zoom level —
and the same position. -/
theorem onWheel_uniform_zoom (ev : WheelEvent) (rect : Rect)
    (s : ComponentState) (mapC playerC : Container) (a : Application)
    (hm : s.mapContainer = some mapC)
    (hp : s.playerIndicatorContainer = some playerC)
    (ha : s.app = some a)
    (hz : newZoomAfter ev s ≠ s.zoomLevel) :
    ∃ mapC' playerC',
      (onWheel ev rect s).mapContainer = some mapC' ∧
      (onWheel ev rect s).playerIndicatorContainer = some playerC' ∧
      (onWheel ev rect s).zoomLevel = newZoomAfter ev s ∧
      mapC'.scale = newZoomAfter ev s ∧
      playerC'.scale = newZoomAfter ev s ∧
      mapC'.position = playerC'.position := by
  simp only [onWheel, hm, ha, hp, Option.map_some']
  rw [if_neg hz]
  exact ⟨_, _, rfl, rfl, rfl, rfl, rfl, rfl⟩

/-- Witness for C8 at the concrete state and a zoom-out event. -/
theorem onWheel_uniform_zoom_witness :
    ∃ mapC' playerC',
      (onWheel sampleWheelOut sampleRect sampleState).mapContainer =
        some mapC' ∧
      (onWheel sampleWheelOut sampleRect
          sampleState).playerIndicatorContainer = some playerC' ∧
      (onWheel sampleWheelOut sampleRect sampleState).zoomLevel =
        newZoomAfter sampleWheelOut sampleState ∧
      mapC'.scale = newZoomAfter sampleWheelOut sampleState ∧
      playerC'.scale = newZoomAfter sampleWheelOut sampleState ∧
      mapC'.position = playerC'.position :=
  onWheel_uniform_zoom sampleWheelOut sampleRect sampleState
    sampleMapContainer samplePlayerContainer sampleApp rfl rfl rfl
    (by norm_num [newZoomAfter, clampZoom, zoomDelta, minZoom, maxZoom,
      sampleState, initialState, sampleWheelOut, min_def, max_def])

/-- C7: the derived tile-window dimensions equal
`min(world, windowTiles + 1)` and so never exceed the corresponding
world dimension, for every world size and viewport size. -/
theorem nodeDims_within_world_bounds
    (worldWidth worldHeight wTiles hTiles : ℚ) :
    nodeWidth worldWidth wTiles = min worldWidth (wTiles + 1) ∧
    nodeHeight worldHeight hTiles = min worldHeight (hTiles + 1) ∧
    nodeWidth worldWidth wTiles ≤ worldWidth ∧
    nodeHeight worldHeight hTiles ≤ worldHeight :=
  ⟨rfl, rfl, min_le_left _ _, min_le_left _ _⟩

/-- C9: on teardown `ngOnDestroy` disconnects the resize observer and
destroys the rendering surface — afterwards any observer still referenced
is disconnected and any application still referenced is destroyed, so no
dangling (connected) observer remains. -/
theorem ngOnDestroy_cleans_up (s : ComponentState) :
    ((ngOnDestroy s).resizeObserver.all fun o => !o.connected) = true ∧
    ((ngOnDestroy s).app.all fun a => a.destroyed) = true := by
  cases h : s.resizeObserver <;> cases h' : s.app <;>
    simp [ngOnDestroy, h, h']

/-- C5: if texture loading throws, `loadTextures` catches the exception,
logs exactly one error and leaves the state untouched — in particular,
from the initial state the terrain and object texture records stay empty
and the check and x indicator textures stay undefined; on success all
four texture fields are assigned. -/
theorem loadTextures_failure_and_success (e : String)
    (claimResult : Except String (Texture × Texture))
    (textures : LoadedTextures × LoadedTextures)
    (claimTex : Texture × Texture) (s : ComponentState) :
    (loadTextures (.error e) claimResult s).1 = s ∧
    (loadTextures (.error e) claimResult s).2 =
      ["Failed to load textures: " ++ e] ∧
    initialState.terrainTextures = [] ∧
    initialState.objectTextures = [] ∧
    initialState.checkTexture = none ∧
    initialState.xTexture = none ∧
    (loadTextures (.ok textures) (.ok claimTex) s).1.terrainTextures =
      textures.1 ∧
    (loadTextures (.ok textures) (.ok claimTex) s).1.objectTextures =
      textures.2 ∧
    (loadTextures (.ok textures) (.ok claimTex) s).1.checkTexture =
      some claimTex.1 ∧
    (loadTextures (.ok textures) (.ok claimTex) s).1.xTexture =
      some claimTex.2 :=
  ⟨rfl, rfl, rfl, rfl, rfl, rfl, rfl, rfl, rfl, rfl⟩

/-- C6: `ngOnInit` performs its phases in order — initialize the
rendering surface, load the textures, render the tile window — and the
rendering step consumes the post-load state, whose texture fields (when
loading succeeded) hold exactly the loaded textures; no tile rendering
happens before texture loading completes. -/
theorem ngOnInit_order_and_dataflow (app : Application)
    (mapC playerC : Container) (obs : Observer)
    (loadResult : Except String (LoadedTextures × LoadedTextures))
    (claimResult : Except String (Texture × Texture))
    (textures : LoadedTextures × LoadedTextures)
    (claimTex : Texture × Texture)
    (create : CreateNodeSpritesFn) (isAtNode : WorldLocation → Bool)
    (indicator : PlayerIndicatorFn) (mapData : List (List MapTileData))
    (s : ComponentState) :
    (ngOnInit app mapC playerC obs loadResult claimResult create isAtNode
        indicator mapData s).2 =
      [.initSurface, .texturesLoaded, .renderTiles] ∧
    List.indexOf InitStep.initSurface
        (ngOnInit app mapC playerC obs loadResult claimResult create
          isAtNode indicator mapData s).2 <
      List.indexOf InitStep.texturesLoaded
        (ngOnInit app mapC playerC obs loadResult claimResult create
          isAtNode indicator mapData s).2 ∧
    List.indexOf InitStep.texturesLoaded
        (ngOnInit app mapC playerC obs loadResult claimResult create
          isAtNode indicator mapData s).2 <
      List.indexOf InitStep.renderTiles
        (ngOnInit app mapC playerC obs loadResult claimResult create
          isAtNode indicator mapData s).2 ∧
    (ngOnInit app mapC playerC obs loadResult claimResult create isAtNode
        indicator mapData s).1 =
      updateMap create isAtNode indicator mapData
        (postLoadState app mapC playerC obs loadResult claimResult s) ∧
    (postLoadState app mapC playerC obs (.ok textures) (.ok claimTex)
        s).terrainTextures = textures.1 ∧
    (postLoadState app mapC playerC obs (.ok textures) (.ok claimTex)
        s).objectTextures = textures.2 ∧
    (postLoadState app mapC playerC obs (.ok textures) (.ok claimTex)
        s).checkTexture = some claimTex.1 ∧
    (postLoadState app mapC playerC obs (.ok textures) (.ok claimTex)
        s).xTexture = some claimTex.2 :=
  ⟨rfl,
   by
     show List.indexOf InitStep.initSurface
         [InitStep.initSurface, InitStep.texturesLoaded,
           InitStep.renderTiles] <
       List.indexOf InitStep.texturesLoaded
         [InitStep.initSurface, InitStep.texturesLoaded,
           InitStep.renderTiles]
     decide,
   by
     show List.indexOf InitStep.texturesLoaded
         [InitStep.initSurface, InitStep.texturesLoaded,
           InitStep.renderTiles] <
       List.indexOf InitStep.renderTiles
         [InitStep.initSurface, InitStep.texturesLoaded,
           InitStep.renderTiles]
     decide,
   rfl, rfl, rfl, rfl, rfl⟩

/-! ## Helper lemmas for the registry rebuild -/

lemma foldl_foldl_join {α β : Type} (g : β → α → β) (L : List (List α))
    (b : β) :
    L.foldl (fun acc row => row.foldl g acc) b = L.flatten.foldl g b := by
  induction L generalizing b with
  | nil => rfl
  | cons l L ih => simp [List.flatten, List.foldl_append, ih]

lemma createNodeSprites_eq (create : CreateNodeSpritesFn) (x y : ℤ)
    (nd : WorldLocation) (s : ComponentState) (mapC : Container)
    (hm : s.mapContainer = some mapC) :
    createNodeSprites create x y nd s =
      { s with
        mapContainer := some { mapC with children := mapC.children ++ (create x y nd s.terrainTextures s.objectTextures s.checkTexture s.xTexture).2 }
        nodeSprites := registryStep create s.terrainTextures s.objectTextures
          s.checkTexture s.xTexture s.nodeSprites ⟨x, y, nd⟩ } := by
  unfold createNodeSprites registryStep
  rw [hm]
  cases hc : (create x y nd s.terrainTextures s.objectTextures s.checkTexture
      s.xTexture).1 <;>
    simp [hc]

lemma foldl_createNodeSpritesStep (create : CreateNodeSpritesFn)
    (tiles : List MapTileData) :
    ∀ (s : ComponentState) (mapC : Container), s.mapContainer = some mapC →
    ∃ mapC',
      tiles.foldl (createNodeSpritesStep create) s =
        { s with
          mapContainer := some mapC'
          nodeSprites := tiles.foldl (registryStep create s.terrainTextures
            s.objectTextures s.checkTexture s.xTexture) s.nodeSprites } := by
  induction tiles with
  | nil =>
    intro s mapC hm
    refine ⟨mapC, ?_⟩
    rw [List.foldl_nil, List.foldl_nil, ← hm]
  | cons t ts ih =>
    intro s mapC hm
    rw [List.foldl_cons, List.foldl_cons]
    show ∃ mapC',
      ts.foldl (createNodeSpritesStep create)
        (createNodeSprites create t.x t.y t.nodeData s) = _
    rw [createNodeSprites_eq create t.x t.y t.nodeData s mapC hm]
    exact ih _ _ rfl

lemma playerIndicatorStep_shape (isAtNode : WorldLocation → Bool)
    (indicator : PlayerIndicatorFn) (s : ComponentState) (t : MapTileData) :
    ∃ pc, playerIndicatorStep isAtNode indicator s t =
      { s with playerIndicatorContainer := pc } := by
  unfold playerIndicatorStep
  split_ifs
  · cases hp : s.playerIndicatorContainer with
    | none => exact ⟨s.playerIndicatorContainer, rfl⟩
    | some pC => exact ⟨_, rfl⟩
  · exact ⟨s.playerIndicatorContainer, rfl⟩

lemma foldl_playerIndicatorStep_shape (isAtNode : WorldLocation → Bool)
    (indicator : PlayerIndicatorFn) (row : List MapTileData) :
    ∀ s : ComponentState, ∃ pc,
      row.foldl (playerIndicatorStep isAtNode indicator) s =
        { s with playerIndicatorContainer := pc } := by
  induction row with
  | nil => intro s; exact ⟨s.playerIndicatorContainer, rfl⟩
  | cons t ts ih =>
    intro s
    rw [List.foldl_cons]
    obtain ⟨pc1, h1⟩ := playerIndicatorStep_shape isAtNode indicator s t
    obtain ⟨pc, h2⟩ := ih (playerIndicatorStep isAtNode indicator s t)
    refine ⟨pc, ?_⟩
    rw [h2, h1]

lemma foldl_rows_playerIndicatorStep_shape (isAtNode : WorldLocation → Bool)
    (indicator : PlayerIndicatorFn) (rows : List (List MapTileData)) :
    ∀ s : ComponentState, ∃ pc,
      rows.foldl (fun acc row =>
          row.foldl (playerIndicatorStep isAtNode indicator) acc) s =
        { s with playerIndicatorContainer := pc } := by
  induction rows with
  | nil => intro s; exact ⟨s.playerIndicatorContainer, rfl⟩
  | cons r rs ih =>
    intro s
    rw [List.foldl_cons]
    obtain ⟨pc1, h1⟩ :=
      foldl_playerIndicatorStep_shape isAtNode indicator r s
    obtain ⟨pc, h2⟩ := ih (r.foldl (playerIndicatorStep isAtNode indicator) s)
    refine ⟨pc, ?_⟩
    rw [h2, h1]

lemma updatePlayerIndicators_shape (isAtNode : WorldLocation → Bool)
    (indicator : PlayerIndicatorFn) (mapData : List (List MapTileData))
    (s : ComponentState) :
    ∃ pc, updatePlayerIndicators isAtNode indicator mapData s =
      { s with playerIndicatorContainer := pc } := by
  unfold updatePlayerIndicators
  split
  · exact foldl_rows_playerIndicatorStep_shape isAtNode indicator mapData s
  · exact ⟨s.playerIndicatorContainer, rfl⟩

lemma foldl_registryStep_isSome_mono (create : CreateNodeSpritesFn)
    (tr ob : LoadedTextures) (ch xt : Option Texture)
    (tiles : List MapTileData) :
    ∀ (reg : String → Option NodeSpriteData) (k : String),
      (reg k).isSome →
      ((tiles.foldl (registryStep create tr ob ch xt) reg) k).isSome := by
  induction tiles with
  | nil => intro reg k h; exact h
  | cons t ts ih =>
    intro reg k h
    rw [List.foldl_cons]
    apply ih
    unfold registryStep
    cases hc : (create t.x t.y t.nodeData tr ob ch xt).1 with
    | none => exact h
    | some d =>
      dsimp only
      by_cases hk : k = nodeKey t.x t.y
      · rw [if_pos hk]; rfl
      · rw [if_neg hk]; exact h

lemma foldl_registryStep_isSome_of_mem (create : CreateNodeSpritesFn)
    (tr ob : LoadedTextures) (ch xt : Option Texture)
    (tiles : List MapTileData) (t : MapTileData) (ht : t ∈ tiles)
    (hc : ((create t.x t.y t.nodeData tr ob ch xt).1).isSome) :
    ∀ reg, ((tiles.foldl (registryStep create tr ob ch xt) reg)
      (nodeKey t.x t.y)).isSome := by
  induction tiles with
  | nil => cases ht
  | cons t' ts ih =>
    intro reg
    rw [List.foldl_cons]
    rcases List.mem_cons.mp ht with rfl | hmem
    · apply foldl_registryStep_isSome_mono
      obtain ⟨d, hd⟩ := Option.isSome_iff_exists.mp hc
      unfold registryStep
      rw [hd]
      dsimp only
      rw [if_pos rfl]
      rfl
    · exact ih hmem _

lemma foldl_registryStep_some_source (create : CreateNodeSpritesFn)
    (tr ob : LoadedTextures) (ch xt : Option Texture)
    (tiles : List MapTileData) :
    ∀ (reg : String → Option NodeSpriteData) (k : String)
      (d : NodeSpriteData),
      (tiles.foldl (registryStep create tr ob ch xt) reg) k = some d →
      (∃ t ∈ tiles, nodeKey t.x t.y = k ∧
        (create t.x t.y t.nodeData tr ob ch xt).1 = some d) ∨
      reg k = some d := by
  induction tiles with
  | nil => intro reg k d h; exact Or.inr h
  | cons t ts ih =>
    intro reg k d h
    rw [List.foldl_cons] at h
    rcases ih _ _ _ h with ⟨t', ht', hk, hc⟩ | hstep
    · exact Or.inl ⟨t', List.mem_cons_of_mem _ ht', hk, hc⟩
    · unfold registryStep at hstep
      cases hc : (create t.x t.y t.nodeData tr ob ch xt).1 with
      | none => rw [hc] at hstep; exact Or.inr hstep
      | some d' =>
        rw [hc] at hstep
        dsimp only at hstep
        by_cases hk : k = nodeKey t.x t.y
        · rw [if_pos hk] at hstep
          injection hstep with hd
          subst hd
          exact Or.inl ⟨t, List.mem_cons_self _ _, hk.symm, hc⟩
        · rw [if_neg hk] at hstep
          exact Or.inr hstep

/-- C4: `updateMap` fully rebuilds the sprite registry.  With both
containers present, the resulting registry equals the registry built from
the empty registry over the new map data's tiles (it is first emptied,
then repopulated), it has an entry under key `x-y` for every tile whose
sprite creation returned data, every entry comes from such a tile of the
new map data, and the result is independent of the previous registry
contents — no entry from any previous map data survives. -/
theorem updateMap_rebuilds_registry (create : CreateNodeSpritesFn)
    (isAtNode : WorldLocation → Bool) (indicator : PlayerIndicatorFn)
    (mapData : List (List MapTileData)) (s : ComponentState)
    (mapC playerC : Container)
    (hm : s.mapContainer = some mapC)
    (hp : s.playerIndicatorContainer = some playerC) :
    (updateMap create isAtNode indicator mapData s).nodeSprites =
      registryOf create s.terrainTextures s.objectTextures s.checkTexture
        s.xTexture mapData.flatten ∧
    (∀ t ∈ mapData.flatten,
      ((create t.x t.y t.nodeData s.terrainTextures s.objectTextures
          s.checkTexture s.xTexture).1).isSome →
      ((updateMap create isAtNode indicator mapData s).nodeSprites
          (nodeKey t.x t.y)).isSome) ∧
    (∀ k d,
      (updateMap create isAtNode indicator mapData s).nodeSprites k =
        some d →
      ∃ t ∈ mapData.flatten, nodeKey t.x t.y = k ∧
        (create t.x t.y t.nodeData s.terrainTextures s.objectTextures
          s.checkTexture s.xTexture).1 = some d) ∧
    (∀ reg2 : String → Option NodeSpriteData,
      (updateMap create isAtNode indicator mapData
          { s with nodeSprites := reg2 }).nodeSprites =
        (updateMap create isAtNode indicator mapData s).nodeSprites) := by
  have key : ∀ (s' : ComponentState) (mC pC : Container),
      s'.mapContainer = some mC → s'.playerIndicatorContainer = some pC →
      (updateMap create isAtNode indicator mapData s').nodeSprites =
        registryOf create s'.terrainTextures s'.objectTextures
          s'.checkTexture s'.xTexture mapData.flatten := by
    intro s' mC pC hmC hpC
    simp only [updateMap, hmC, hpC]
    rw [foldl_foldl_join (createNodeSpritesStep create) mapData]
    obtain ⟨mapC', hfold⟩ := foldl_createNodeSpritesStep create
      mapData.flatten (clearedState mC pC s') _ rfl
    obtain ⟨pc2, hpi⟩ := updatePlayerIndicators_shape isAtNode indicator
      mapData (mapData.flatten.foldl (createNodeSpritesStep create)
        (clearedState mC pC s'))
    rw [hpi, hfold]
    rfl
  have hmain := key s mapC playerC hm hp
  refine ⟨hmain, ?_, ?_, ?_⟩
  · intro t ht hc
    rw [hmain]
    exact foldl_registryStep_isSome_of_mem create s.terrainTextures
      s.objectTextures s.checkTexture s.xTexture mapData.flatten t ht hc _
  · intro k d hkd
    rw [hmain] at hkd
    rcases foldl_registryStep_some_source create s.terrainTextures
        s.objectTextures s.checkTexture s.xTexture mapData.flatten
        (fun _ => none) k d hkd with h | h
    · exact h
    · simp at h
  · intro reg2
    rw [key { s with nodeSprites := reg2 } mapC playerC hm hp, hmain]

/-- Witness for C4 at concrete containers, map data and sprite-creation
behaviour. -/
theorem updateMap_rebuilds_registry_witness :
    (updateMap sampleCreate sampleIsAtNode sampleIndicator sampleMapData
        sampleState).nodeSprites =
      registryOf sampleCreate sampleState.terrainTextures
        sampleState.objectTextures sampleState.checkTexture
        sampleState.xTexture sampleMapData.flatten ∧
    (∀ t ∈ sampleMapData.flatten,
      ((sampleCreate t.x t.y t.nodeData sampleState.terrainTextures
          sampleState.objectTextures sampleState.checkTexture
          sampleState.xTexture).1).isSome →
      ((updateMap sampleCreate sampleIsAtNode sampleIndicator sampleMapData
          sampleState).nodeSprites (nodeKey t.x t.y)).isSome) ∧
    (∀ k d,
      (updateMap sampleCreate sampleIsAtNode sampleIndicator sampleMapData
          sampleState).nodeSprites k = some d →
      ∃ t ∈ sampleMapData.flatten, nodeKey t.x t.y = k ∧
        (sampleCreate t.x t.y t.nodeData sampleState.terrainTextures
          sampleState.objectTextures sampleState.checkTexture
          sampleState.xTexture).1 = some d) ∧
    (∀ reg2 : String → Option NodeSpriteData,
      (updateMap sampleCreate sampleIsAtNode sampleIndicator sampleMapData
          { sampleState with nodeSprites := reg2 }).nodeSprites =
        (updateMap sampleCreate sampleIsAtNode sampleIndicator sampleMapData
          sampleState).nodeSprites) :=
  updateMap_rebuilds_registry sampleCreate sampleIsAtNode sampleIndicator
    sampleMapData sampleState sampleMapContainer samplePlayerContainer
    rfl rfl

end GameMap
